import Mathlib

/-
Shallow embedding of the MCP node gateway (two server variants:
`src/integration.js` and the Replit variant `src/unnamed/part_000`).

The embedding models:
  - the in-memory credential store (`OAUTH_TOKEN`, `setToken`, `clearToken`,
    `getAuthHeader`) with JavaScript truthiness of the stored string;
  - the protected call executors `protectedAxios` / `protectedFetch` as
    state transformers over the credential, parametrised by the backend
    behaviour (`AxiosResponse` / `FetchBehavior`), returning the JS value
    they produce (`Except` error = a thrown exception) together with the
    number of network requests actually issued;
  - the repository normalization inlined at the call sites
    (`if (!x.startsWith('http')) x = 'https://github.com/' + x`) as
    `toFullUrl`;
  - the single-shot `vectorSearch` tool of integration.js and the polling
    `vectorSearchWithSummary` tool (6-attempt loop, one indexing trigger,
    10 s inter-attempt delay), instrumented with counters (`Stats`) for
    search network requests, index executor invocations, index network
    requests and accumulated wait time;
  - the Replit variant's two-attempt `vectorSearch` with its `hasResults`
    text test.

JS strings are Lean `String`s; `toLowerCase` is modelled character-wise and
`includes` as a substring scan over the character list.
-/

deriving instance DecidableEq for Except

-- ## Generic JS string helpers

/-- Model of JavaScript `toLowerCase` (character-wise lowering). -/
def jsToLower (s : String) : String := ⟨s.data.map Char.toLower⟩

/-- Substring scan used to model JavaScript `String.prototype.includes`. -/
def infixChars (pat : List Char) : List Char → Bool
  | [] => pat.isPrefixOf []
  | c :: t => pat.isPrefixOf (c :: t) || infixChars pat t

/-- Model of JavaScript `s.includes(pat)`. -/
def strIncludes (s pat : String) : Bool := infixChars pat.data s.data

/-- Model of JavaScript `s.startsWith(pat)`. -/
def jsStartsWith (s pat : String) : Bool := pat.data.isPrefixOf s.data

/-- The apostrophe character, used in the user-facing messages. -/
def apos : String := String.singleton (Char.ofNat 39)

/-- Interpolation of a possibly-undefined JS string value. -/
def jsStr : Option String → String
  | some s => s
  | none => "undefined"

-- ## Credential store (integration.js lines 55-68)

/-- The process-wide `OAUTH_TOKEN` slot: `none` models `null`. -/
abbrev CredState := Option String

/-- `setToken(token)`: unconditionally replaces the stored token. -/
def setToken (t : String) (_cred : CredState) : CredState := some t

/-- `clearToken()`: sets `OAUTH_TOKEN = null`. -/
def clearToken (_cred : CredState) : CredState := none

/-- JS truthiness of `OAUTH_TOKEN` (`null` and the empty string are falsy). -/
def tokenTruthy : CredState → Bool
  | none => false
  | some t => !(t == "")

/-- The spec's `hasToken()` read operation: the guards in the source are
`if (!OAUTH_TOKEN)`, i.e. truthiness of the stored value. -/
def hasToken (cred : CredState) : Bool := tokenTruthy cred

/-- `getAuthHeader()`: one `Authorization: Bearer` entry when a token is
present, otherwise the empty mapping. -/
def getAuthHeader : CredState → List (String × String)
  | some t => if t == "" then [] else [("Authorization", "Bearer " ++ t)]
  | none => []

/-- `AUTH_LOGIN_URL` (integration.js line 70). -/
def AUTH_LOGIN_URL (baseUrl : String) : String := baseUrl ++ "/auth/login"

/-- The no-credential prompt returned without attempting a network call. -/
def noTokenMsg (baseUrl : String) : String :=
  "No token found. Please get your token from: " ++
    (AUTH_LOGIN_URL baseUrl ++ " and try your request again with the token.")

/-- The auth-failure prompt returned after a 401/403 response. -/
def expiredMsg (baseUrl : String) : String :=
  "Token expired or invalid. Please get a new token from: " ++ AUTH_LOGIN_URL baseUrl

-- ## Backend payloads and responses

/-- The fields of a decoded backend JSON body that the orchestrators inspect:
`error` (truthiness), `status`, `status_code`, `message`; `data` carries the
search results and is never inspected by the recovery logic. -/
structure Payload where
  error : Bool
  status : Option String
  status_code : Option Nat
  message : Option String
  data : List String
deriving DecidableEq

/-- The `{ error: true, message }` objects built by the protected executors. -/
def errPayload (msg : String) : Payload :=
  { error := true, status := none, status_code := none, message := some msg, data := [] }

/-- Behaviour of one `axios` call: a 2xx response with a decoded body (an
`Option` because the body may be a falsy JS value), a non-2xx response
(`error.response` present, with its status, optional object body and the
thrown error's `.message`), or a transport error without a response. -/
inductive AxiosResponse where
  | success (body : Option Payload)
  | httpError (status : Nat) (body : Option Payload) (errMessage : String)
  | netError (errMessage : String)
deriving DecidableEq

/-- Behaviour of one `fetch` call: a transport error, or a response with a
status and the result of `JSON.parse` on its text. -/
inductive FetchBehavior where
  | netError (errMessage : String)
  | resp (status : Nat) (parsed : Except String (Option Payload))
deriving DecidableEq

/-- Outcome of a protected executor call: the JS value it produces
(`Except.error` = a thrown exception), the credential slot afterwards, and
the number of network requests issued (0 or 1). -/
structure ProtOutcome where
  result : Except String (Option Payload)
  cred : CredState
  net : Nat
deriving DecidableEq

-- ## Protected call executors (integration.js lines 73-119)

/-- `protectedAxios(options)`: no-credential short-circuit; on 401/403 clear
the token and return the auth-failure object; rethrow other errors; return
`response.data` on success. -/
def protectedAxios (baseUrl : String) (cred : CredState) (resp : AxiosResponse) : ProtOutcome :=
  if tokenTruthy cred then
    match resp with
    | .success body => ⟨.ok body, cred, 1⟩
    | .httpError status _body errMessage =>
        if status == 401 || status == 403 then
          ⟨.ok (some (errPayload (expiredMsg baseUrl))), clearToken cred, 1⟩
        else ⟨.error errMessage, cred, 1⟩
    | .netError errMessage => ⟨.error errMessage, cred, 1⟩
  else ⟨.ok (some (errPayload (noTokenMsg baseUrl))), cred, 0⟩

/-- `protectedFetch(url, options)`: same contract over `fetch`; a 401/403
status clears the token; otherwise the body is parsed (a parse failure is
rethrown, as is a transport error). -/
def protectedFetch (baseUrl : String) (cred : CredState) (b : FetchBehavior) : ProtOutcome :=
  if tokenTruthy cred then
    match b with
    | .netError m => ⟨.error m, cred, 1⟩
    | .resp status parsed =>
        if status == 401 || status == 403 then
          ⟨.ok (some (errPayload (expiredMsg baseUrl))), clearToken cred, 1⟩
        else
          match parsed with
          | .ok p => ⟨.ok p, cred, 1⟩
          | .error m => ⟨.error m, cred, 1⟩
  else ⟨.ok (some (errPayload (noTokenMsg baseUrl))), cred, 0⟩

/-- Whether an axios behaviour is a response with status 401 or 403. -/
def axiosAuthStatus : AxiosResponse → Bool
  | .httpError s _ _ => s == 401 || s == 403
  | _ => false

/-- Whether a fetch behaviour is a response with status 401 or 403. -/
def fetchAuthStatus : FetchBehavior → Bool
  | .resp s _ => s == 401 || s == 403
  | _ => false

-- ## Repository identifier normalization

/-- The inline normalization at the indexing call sites:
`if (!ref.startsWith('http')) ref = 'https://github.com/' + ref`. -/
def toFullUrl (ref : String) : String :=
  if jsStartsWith ref "http" then ref else "https://github.com/" ++ ref

-- ## Classification predicates

/-- The single-shot recovery guard (integration.js lines 265 and 362):
`result && (result.error || result.status === 'error' ||
result.status_code === 500 ||
(result.message && result.message.toLowerCase().includes('not found')))`. -/
def needsIndexing : Option Payload → Bool
  | none => false
  | some p =>
      p.error || p.status == some "error" || p.status_code == some 500 ||
        (match p.message with
         | some m => !(m == "") && strIncludes (jsToLower m) "not found"
         | none => false)

/-- The polling loop's classification (integration.js lines 450-457): with an
object body, `(body.message || '')` lowercased must contain "not found" or
"not indexed"; otherwise the thrown error's message must contain
"not found"; in addition a response status of 404 or 500 qualifies. -/
def summaryNotFound : AxiosResponse → Bool
  | .success _ => false
  | .httpError status body errMessage =>
      (match body with
       | some p =>
           strIncludes (jsToLower (p.message.getD "")) "not found" ||
             strIncludes (jsToLower (p.message.getD "")) "not indexed"
       | none => strIncludes (jsToLower errMessage) "not found")
      || status == 404 || status == 500
  | .netError errMessage => strIncludes (jsToLower errMessage) "not found"

/-- The message of the error an attempt stores in `lastError`. -/
def respErrMsg : AxiosResponse → String
  | .success _ => ""
  | .httpError _ _ m => m
  | .netError m => m

/-- Whether a behaviour is a 2xx response. -/
def isSuccessResp : AxiosResponse → Bool
  | .success _ => true
  | _ => false

/-- The index-failure guard applied to the protected executor's value:
`indexResult && (indexResult.error || indexResult.status === 'error')`. -/
def indexFailed : Option Payload → Bool
  | none => false
  | some p => p.error || p.status == some "error"

/-- `message` field of a possibly-falsy payload. -/
def payloadMsgOf : Option Payload → Option String
  | none => none
  | some p => p.message

-- ## User-facing messages of the orchestrators

/-- JS template fragment `'${repo}'`. -/
def quoteRepo (repo : String) : String := apos ++ (repo ++ apos)

/-- Message returned by the single-shot configuration after triggering
indexing successfully. -/
def startedMsg (repo : String) : String :=
  "Repository " ++ quoteRepo repo ++
    " not found or not indexed. Indexing has been started automatically. Please try your request again after indexing is complete."

/-- Message returned when the automatic indexing trigger fails. -/
def indexFailedMsg (repo m : String) : String :=
  "Repository " ++ quoteRepo repo ++ " not found or not indexed. Attempted to index but failed: " ++ m

/-- Final message of the polling configuration when no attempt succeeded. -/
def summaryFailMsg (repo m : String) : String :=
  "Repository " ++ quoteRepo repo ++
    " not found or not indexed after multiple attempts. Please try again later. Last error: " ++ m

-- ## Orchestrator runs

/-- Final value of a tool invocation: either the backend payload serialized
unchanged (`payloadText`), or one of the fixed user-facing texts. -/
inductive ToolResult where
  | payloadText (p : Option Payload)
  | text (t : String)
deriving DecidableEq

/-- Instrumentation of a run: network search requests issued, invocations of
the protected executor for `/index`, network requests for `/index`, total
waiting time, and the `repo_url` sent to `/index` (if any). -/
structure Stats where
  searchNet : Nat
  indexExec : Nat
  indexNet : Nat
  waitedMs : Nat
  indexRepoUrl : Option String
deriving DecidableEq

/-- All counters zero, no index request. -/
def Stats.zero : Stats := ⟨0, 0, 0, 0, none⟩

/-- A finished orchestrator run: the tool's value (`Except.error` = the tool
handler threw), the credential afterwards, and the instrumentation. -/
structure Run where
  result : Except String ToolResult
  cred : CredState
  stats : Stats
deriving DecidableEq

/-- The fixed inter-attempt delay of the polling loop (`delay(10000)`). -/
def delayMs : Nat := 10000

/-- The single-shot `vectorSearch` tool of integration.js (lines 344-400):
no-token guard, protected search, recovery guard `needsIndexing`, protected
index trigger on `toFullUrl repo`, and the three possible final texts. The
`chat` tool's post-command flow (lines 262-294) has the same structure. -/
def vectorSearch (baseUrl repo : String) (cred : CredState)
    (searchResp indexResp : AxiosResponse) : Run :=
  if tokenTruthy cred then
    let s := protectedAxios baseUrl cred searchResp
    match s.result with
    | .error m => ⟨.error m, s.cred, ⟨s.net, 0, 0, 0, none⟩⟩
    | .ok result =>
      if needsIndexing result then
        let idx := protectedAxios baseUrl s.cred indexResp
        let st : Stats := ⟨s.net, 1, idx.net, 0, some (toFullUrl repo)⟩
        match idx.result with
        | .error m => ⟨.error m, idx.cred, st⟩
        | .ok ir =>
          if indexFailed ir then
            ⟨.ok (.text (indexFailedMsg repo (jsStr (payloadMsgOf ir)))), idx.cred, st⟩
          else ⟨.ok (.text (startedMsg repo)), idx.cred, st⟩
      else ⟨.ok (.payloadText result), s.cred, ⟨s.net, 0, 0, 0, none⟩⟩
  else ⟨.ok (.text (noTokenMsg baseUrl)), cred, Stats.zero⟩

/-- One step of the polling loop `for (attempt = 0; attempt < 6; attempt++)`
(integration.js lines 428-491). `fuel` is the number of loop iterations the
counter still allows (`6 - attempt`); running out of fuel models the loop
condition failing, which falls through to the final failure message. -/
def summaryLoop (baseUrl repo : String) (searchResps : Nat → AxiosResponse)
    (indexResp : AxiosResponse) :
    Nat → Nat → Bool → CredState → Stats → String → Run
  | 0, _attempt, _indexed, cred, st, lastErr =>
      ⟨.ok (.text (summaryFailMsg repo lastErr)), cred, st⟩
  | fuel+1, attempt, indexed, cred, st, _lastErr =>
      match searchResps attempt with
      | .success body =>
          ⟨.ok (.payloadText body), cred, { st with searchNet := st.searchNet + 1 }⟩
      | r =>
          let st1 : Stats := { st with searchNet := st.searchNet + 1 }
          let emsg := respErrMsg r
          if summaryNotFound r then
            if !indexed then
              let idx := protectedAxios baseUrl cred indexResp
              let st2 : Stats := { st1 with indexExec := st1.indexExec + 1,
                                            indexNet := st1.indexNet + idx.net,
                                            indexRepoUrl := some (toFullUrl repo) }
              match idx.result with
              | .error m => ⟨.error m, idx.cred, st2⟩
              | .ok ir =>
                if indexFailed ir then
                  ⟨.ok (.text (indexFailedMsg repo (jsStr (payloadMsgOf ir)))), idx.cred, st2⟩
                else
                  summaryLoop baseUrl repo searchResps indexResp fuel (attempt+1) true idx.cred
                    { st2 with waitedMs := st2.waitedMs + delayMs } emsg
            else if attempt < 5 then
              summaryLoop baseUrl repo searchResps indexResp fuel (attempt+1) indexed cred
                { st1 with waitedMs := st1.waitedMs + delayMs } emsg
            else ⟨.ok (.text (summaryFailMsg repo emsg)), cred, st1⟩
          else ⟨.ok (.text (summaryFailMsg repo emsg)), cred, st1⟩

/-- The polling `vectorSearchWithSummary` tool (integration.js lines
412-502): no-token guard, then the 6-attempt loop starting with
`indexed = false` and `lastError = null` (whose JS stringification is
"null"). -/
def vectorSearchWithSummary (baseUrl repo : String) (cred : CredState)
    (searchResps : Nat → AxiosResponse) (indexResp : AxiosResponse) : Run :=
  if tokenTruthy cred then
    summaryLoop baseUrl repo searchResps indexResp 6 0 false cred Stats.zero "null"
  else ⟨.ok (.text (noTokenMsg baseUrl)), cred, Stats.zero⟩

-- ## Replit variant (src/unnamed/part_000)

/-- A tool response envelope of the Replit variant: its single text item and
the `isError` flag. -/
structure Envelope where
  text : String
  isError : Bool
deriving DecidableEq

/-- One search attempt of the Replit `vectorSearch` (part_000 lines
221-251): on success the envelope's text is the serialization of
`response.data`; on a thrown error an `isError` envelope whose text renders
the `{status:'error', message:'Search failed: ...'}` object (only the flag
matters to `hasResults`, which rejects every `isError` envelope). -/
def replitSearchEnvelope : Except String String → Envelope
  | .ok t => ⟨t, false⟩
  | .error m => ⟨"Search failed: " ++ m, true⟩

/-- The serialization of an empty JS object, `JSON.stringify({})`. -/
def emptyObjText : String := "\x7b\x7d"

/-- `hasResults(result)` (part_000 lines 211-218): a non-error envelope with
some text item that is non-empty, does not contain "error", and is neither
the empty-object nor the empty-array serialization. -/
def hasResults (r : Envelope) : Bool :=
  if r.isError then false
  else !(r.text == "") && !(strIncludes r.text "error") &&
    !(r.text == emptyObjText) && !(r.text == "[]")

/-- A finished Replit `vectorSearch` run: final envelope, number of search
attempts issued, and whether the indexing tool was invoked. -/
structure ReplitRun where
  envelope : Envelope
  searchNet : Nat
  indexCalled : Bool
deriving DecidableEq

/-- The Replit `vectorSearch` tool (part_000 lines 210-296): first attempt;
if `hasResults` fails, a second identical attempt; if that also fails and a
`repoUrl` parameter was given, invoke the indexing tool; return the second
envelope either way. -/
def replitVectorSearch (resp1 resp2 : Except String String) (repoUrlGiven : Bool) : ReplitRun :=
  let r1 := replitSearchEnvelope resp1
  if hasResults r1 then ⟨r1, 1, false⟩
  else
    let r2 := replitSearchEnvelope resp2
    if hasResults r2 then ⟨r2, 2, false⟩
    else ⟨r2, 2, repoUrlGiven⟩

-- ## Request configuration (timeouts)

/-- The fields of an axios request configuration relevant here. -/
structure AxiosConfig where
  timeout : Option Nat
  headers : List (String × String)
deriving DecidableEq

/-- part_000 lines 60-66: `{ timeout: 30000, headers: {...} }`, with the
`X-MCP-Token` header when the shared secret is set. -/
def replitAxiosConfig (secret : Option String) : AxiosConfig :=
  ⟨some 30000, match secret with | some t => [("X-MCP-Token", t)] | none => []⟩

/-- integration.js lines 47-53: `const axiosConfig = {}` plus the optional
`X-MCP-Token` header; no `timeout` field is ever set. -/
def integrationAxiosConfig (secret : Option String) : AxiosConfig :=
  ⟨none, match secret with | some t => [("X-MCP-Token", t)] | none => []⟩

/-- The request options passed to axios by `vectorSearchWithSummary`
(integration.js line 436): `{ headers: getAuthHeader() }`, no timeout. -/
def summarySearchReqTimeout : Option Nat := none

/-- The request options built at the `protectedAxios` call sites of
integration.js (method, url, data only): no timeout. -/
def protectedCallReqTimeout : Option Nat := none

-- ## Helper lemmas

set_option maxRecDepth 10000

theorem isPrefixOf_append_self (l t : List Char) : l.isPrefixOf (l ++ t) = true := by
  induction l with
  | nil => simp
  | cons a as ih => simp [ih]

theorem infixChars_nil (hay : List Char) : infixChars [] hay = true := by
  cases hay <;> simp [infixChars]

theorem infixChars_self_append (u suf : List Char) : infixChars u (u ++ suf) = true := by
  cases u with
  | nil => simpa using infixChars_nil suf
  | cons c t => simp [infixChars, isPrefixOf_append_self]

theorem infixChars_append (pre u suf : List Char) :
    infixChars u (pre ++ (u ++ suf)) = true := by
  induction pre with
  | nil => simpa using infixChars_self_append u suf
  | cons a as ih => simp [infixChars, ih]

theorem strIncludes_mid (a u b : String) : strIncludes (a ++ (u ++ b)) u = true := by
  have h : (a ++ (u ++ b)).data = a.data ++ (u.data ++ b.data) := by
    cases a; cases u; cases b; rfl
  simp [strIncludes, h, infixChars_append]

theorem infixChars_append_right (pre u : List Char) : infixChars u (pre ++ u) = true := by
  induction pre with
  | nil => simpa using infixChars_self_append u []
  | cons a as ih => simp [infixChars, ih]

theorem strIncludes_right (a u : String) : strIncludes (a ++ u) u = true := by
  have h : (a ++ u).data = a.data ++ u.data := by
    cases a; cases u; rfl
  simp [strIncludes, h, infixChars_append_right]

theorem jsStartsWith_github (r : String) :
    jsStartsWith ("https://github.com/" ++ r) "http" = true := by
  cases r with
  | mk d =>
    show List.isPrefixOf "http".data ("https://github.com/".data ++ d) = true
    have h : "https://github.com/".data = "http".data ++ "s://github.com/".data := rfl
    rw [h, List.append_assoc]
    exact isPrefixOf_append_self _ _

-- ## Claim theorems

/-- Claim C7: the full-URL normalization is idempotent; inputs starting with
"http" pass through unchanged, and all other inputs receive exactly one
"https://github.com/" prefix. -/
theorem claim_C7 (r : String) :
    toFullUrl (toFullUrl r) = toFullUrl r ∧
    (jsStartsWith r "http" = true → toFullUrl r = r) ∧
    (jsStartsWith r "http" = false → toFullUrl r = "https://github.com/" ++ r) := by
  refine ⟨?_, fun h => by simp [toFullUrl, h], fun h => by simp [toFullUrl, h]⟩
  by_cases h : jsStartsWith r "http" = true
  · simp [toFullUrl, h]
  · have h' : jsStartsWith r "http" = false := by simpa using h
    simp [toFullUrl, h', jsStartsWith_github]

/-- Witness for C7 at the bare reference "octo/widgets" and at a
scheme-prefixed reference. -/
theorem claim_C7_witness :
    toFullUrl (toFullUrl "octo/widgets") = toFullUrl "octo/widgets" ∧
    toFullUrl "octo/widgets" = "https://github.com/" ++ "octo/widgets" ∧
    toFullUrl "https://github.com/octo/widgets" = "https://github.com/octo/widgets" :=
  ⟨(claim_C7 "octo/widgets").1,
   (claim_C7 "octo/widgets").2.2 (by decide),
   (claim_C7 "https://github.com/octo/widgets").2.1 (by decide)⟩

/-- Claim C5: with a credential stored, a 401 or 403 response makes either
protected executor clear the credential (`hasToken` is false afterwards, so
the next protected call takes the no-credential branch and issues no network
request) and return the distinguished auth-failure object whose message
contains the login URL. -/
theorem claim_C5 (baseUrl : String) (cred : CredState) (htok : tokenTruthy cred = true)
    (s : Nat) (hs : s = 401 ∨ s = 403) (body : Option Payload) (emsg : String)
    (fparsed : Except String (Option Payload)) (nextResp : AxiosResponse) :
    (protectedAxios baseUrl cred (.httpError s body emsg)).cred = none ∧
    hasToken (protectedAxios baseUrl cred (.httpError s body emsg)).cred = false ∧
    (protectedAxios baseUrl cred (.httpError s body emsg)).result =
      .ok (some (errPayload (expiredMsg baseUrl))) ∧
    strIncludes (expiredMsg baseUrl) (AUTH_LOGIN_URL baseUrl) = true ∧
    protectedAxios baseUrl (protectedAxios baseUrl cred (.httpError s body emsg)).cred nextResp =
      ⟨.ok (some (errPayload (noTokenMsg baseUrl))), none, 0⟩ ∧
    (protectedFetch baseUrl cred (.resp s fparsed)).cred = none ∧
    (protectedFetch baseUrl cred (.resp s fparsed)).result =
      .ok (some (errPayload (expiredMsg baseUrl))) := by
  have hb : (s == 401 || s == 403) = true := by
    rcases hs with h | h <;> simp [h]
  have hax : protectedAxios baseUrl cred (.httpError s body emsg) =
      ⟨.ok (some (errPayload (expiredMsg baseUrl))), none, 1⟩ := by
    simp [protectedAxios, htok, hb, clearToken]
  have hfe : protectedFetch baseUrl cred (.resp s fparsed) =
      ⟨.ok (some (errPayload (expiredMsg baseUrl))), none, 1⟩ := by
    simp [protectedFetch, htok, hb, clearToken]
  refine ⟨by rw [hax], by rw [hax]; rfl, by rw [hax], ?_, by rw [hax]; rfl, by rw [hfe], by rw [hfe]⟩
  simp only [expiredMsg]
  exact strIncludes_right _ _

/-- Witness for C5: a stored token and a concrete 401 response. -/
theorem claim_C5_witness :
    (protectedAxios "http://localhost:8081" (some "tok")
        (.httpError 401 none "Request failed with status code 401")).cred = none ∧
    hasToken (protectedAxios "http://localhost:8081" (some "tok")
        (.httpError 401 none "Request failed with status code 401")).cred = false ∧
    (protectedAxios "http://localhost:8081" (some "tok")
        (.httpError 401 none "Request failed with status code 401")).result =
      .ok (some (errPayload (expiredMsg "http://localhost:8081"))) ∧
    strIncludes (expiredMsg "http://localhost:8081") (AUTH_LOGIN_URL "http://localhost:8081") = true ∧
    protectedAxios "http://localhost:8081"
        (protectedAxios "http://localhost:8081" (some "tok")
          (.httpError 401 none "Request failed with status code 401")).cred (.success none) =
      ⟨.ok (some (errPayload (noTokenMsg "http://localhost:8081"))), none, 0⟩ ∧
    (protectedFetch "http://localhost:8081" (some "tok") (.resp 401 (.ok none))).cred = none ∧
    (protectedFetch "http://localhost:8081" (some "tok") (.resp 401 (.ok none))).result =
      .ok (some (errPayload (expiredMsg "http://localhost:8081"))) :=
  claim_C5 "http://localhost:8081" (some "tok") (by decide) 401 (Or.inl rfl) none
    "Request failed with status code 401" (.ok none) (.success none)

/-- Claim C6: without a credential, both protected executors return the
distinguished no-credential result whose message contains the login URL
(base URL ++ "/auth/login") and issue zero network requests. -/
theorem claim_C6 (baseUrl : String) (cred : CredState) (h : tokenTruthy cred = false)
    (resp : AxiosResponse) (fb : FetchBehavior) :
    protectedAxios baseUrl cred resp = ⟨.ok (some (errPayload (noTokenMsg baseUrl))), cred, 0⟩ ∧
    protectedFetch baseUrl cred fb = ⟨.ok (some (errPayload (noTokenMsg baseUrl))), cred, 0⟩ ∧
    strIncludes (noTokenMsg baseUrl) (AUTH_LOGIN_URL baseUrl) = true := by
  refine ⟨by simp [protectedAxios, h], by simp [protectedFetch, h], ?_⟩
  simp only [noTokenMsg]
  exact strIncludes_mid _ _ _

/-- Witness for C6: empty credential slot, arbitrary pending behaviours. -/
theorem claim_C6_witness :
    protectedAxios "http://localhost:8081" none (.success none) =
      ⟨.ok (some (errPayload (noTokenMsg "http://localhost:8081"))), none, 0⟩ ∧
    protectedFetch "http://localhost:8081" none (.resp 200 (.ok none)) =
      ⟨.ok (some (errPayload (noTokenMsg "http://localhost:8081"))), none, 0⟩ ∧
    strIncludes (noTokenMsg "http://localhost:8081") (AUTH_LOGIN_URL "http://localhost:8081") = true :=
  claim_C6 "http://localhost:8081" none (by decide) (.success none) (.resp 200 (.ok none))

/-- Claim C9: the credential is preserved by every protected call whose
response is a success, a thrown transport error, or a failure with a status
other than 401/403 — only the 401/403 branch (and the explicit
setToken/clearToken operations) mutate it. -/
theorem claim_C9 (baseUrl : String) (cred : CredState) (resp : AxiosResponse)
    (fb : FetchBehavior) (hA : axiosAuthStatus resp = false) (hF : fetchAuthStatus fb = false) :
    (protectedAxios baseUrl cred resp).cred = cred ∧
    (protectedFetch baseUrl cred fb).cred = cred := by
  constructor
  · cases resp with
    | success body => cases h : tokenTruthy cred <;> simp [protectedAxios, h]
    | httpError s b m =>
        have hb : (s == 401 || s == 403) = false := by simpa [axiosAuthStatus] using hA
        cases h : tokenTruthy cred <;> simp [protectedAxios, h, hb]
    | netError m => cases h : tokenTruthy cred <;> simp [protectedAxios, h]
  · cases fb with
    | netError m => cases h : tokenTruthy cred <;> simp [protectedFetch, h]
    | resp s parsed =>
        have hb : (s == 401 || s == 403) = false := by simpa [fetchAuthStatus] using hF
        cases h : tokenTruthy cred <;> cases parsed <;> simp [protectedFetch, h, hb]

/-- Witness for C9: a stored token, a 500 axios failure and a successful
fetch response both leave the credential in place. -/
theorem claim_C9_witness :
    (protectedAxios "http://localhost:8081" (some "tok")
        (.httpError 500 none "Request failed with status code 500")).cred = some "tok" ∧
    (protectedFetch "http://localhost:8081" (some "tok") (.resp 200 (.ok none))).cred = some "tok" :=
  claim_C9 "http://localhost:8081" (some "tok")
    (.httpError 500 none "Request failed with status code 500") (.resp 200 (.ok none))
    (by decide) (by decide)

/-- Claim C1 counterexample: with a credential stored, a 401 on the
single-shot search does NOT terminate the run with the reauthentication
prompt and does NOT skip indexing — the indexing executor is invoked once
and the final text is the "Attempted to index but failed" message. -/
theorem claim_C1_counterexample :
    (vectorSearch "http://localhost:8081" "octo/widgets" (some "tok")
        (.httpError 401 none "Request failed with status code 401")
        (.success none)).stats.indexExec ≠ 0 ∧
    (vectorSearch "http://localhost:8081" "octo/widgets" (some "tok")
        (.httpError 401 none "Request failed with status code 401")
        (.success none)).result ≠
      .ok (.text (expiredMsg "http://localhost:8081")) ∧
    (vectorSearch "http://localhost:8081" "octo/widgets" (some "tok")
        (.httpError 401 none "Request failed with status code 401")
        (.success none)).result ≠
      .ok (.text (noTokenMsg "http://localhost:8081")) := by decide

/-- Claim C1 (amended): when no credential is stored, both configurations
terminate immediately with the no-credential reauthentication prompt,
performing no search, no indexing call and no retry. When the executor
signals auth-failure (401/403) for the single-shot search, the credential is
cleared but the orchestrator enters the indexing branch: the protected index
call short-circuits on the now-absent credential (zero network requests),
and the run terminates, without retrying, with the indexing-failure message
that embeds the no-credential login-URL instruction. (In the polling
configuration the search call does not route through the executor.) -/
theorem claim_C1_amended (baseUrl repo : String) (cred : CredState)
    (hno : tokenTruthy cred = false) (sr ir : AxiosResponse) (srs : Nat → AxiosResponse)
    (cred2 : CredState) (htok : tokenTruthy cred2 = true)
    (s : Nat) (hs : s = 401 ∨ s = 403) (body : Option Payload) (emsg : String)
    (ir2 : AxiosResponse) :
    vectorSearch baseUrl repo cred sr ir =
      ⟨.ok (.text (noTokenMsg baseUrl)), cred, Stats.zero⟩ ∧
    vectorSearchWithSummary baseUrl repo cred srs ir =
      ⟨.ok (.text (noTokenMsg baseUrl)), cred, Stats.zero⟩ ∧
    vectorSearch baseUrl repo cred2 (.httpError s body emsg) ir2 =
      ⟨.ok (.text (indexFailedMsg repo (noTokenMsg baseUrl))), none,
        ⟨1, 1, 0, 0, some (toFullUrl repo)⟩⟩ := by
  have hb : (s == 401 || s == 403) = true := by
    rcases hs with h | h <;> simp [h]
  have hax : protectedAxios baseUrl cred2 (.httpError s body emsg) =
      ⟨.ok (some (errPayload (expiredMsg baseUrl))), none, 1⟩ := by
    simp [protectedAxios, htok, hb, clearToken]
  have hidx : protectedAxios baseUrl none ir2 =
      ⟨.ok (some (errPayload (noTokenMsg baseUrl))), none, 0⟩ := rfl
  refine ⟨by simp [vectorSearch, hno], by simp [vectorSearchWithSummary, hno], ?_⟩
  simp [vectorSearch, htok, hax, hidx, needsIndexing, indexFailed, errPayload, jsStr, payloadMsgOf]

/-- Witness for the amended C1: empty credential slot for the first two
conjuncts; stored token and a concrete 401 for the third. -/
theorem claim_C1_witness :
    vectorSearch "http://localhost:8081" "octo/widgets" none (.success none) (.success none) =
      ⟨.ok (.text (noTokenMsg "http://localhost:8081")), none, Stats.zero⟩ ∧
    vectorSearchWithSummary "http://localhost:8081" "octo/widgets" none
        (fun _ => .success none) (.success none) =
      ⟨.ok (.text (noTokenMsg "http://localhost:8081")), none, Stats.zero⟩ ∧
    vectorSearch "http://localhost:8081" "octo/widgets" (some "tok")
        (.httpError 401 none "Request failed with status code 401") (.success none) =
      ⟨.ok (.text (indexFailedMsg "octo/widgets" (noTokenMsg "http://localhost:8081"))), none,
        ⟨1, 1, 0, 0, some (toFullUrl "octo/widgets")⟩⟩ :=
  claim_C1_amended "http://localhost:8081" "octo/widgets" none (by decide) (.success none)
    (.success none) (fun _ => .success none) (some "tok") (by decide) 401 (Or.inl rfl) none
    "Request failed with status code 401" (.success none)

/-- Claim C2 counterexample: a successful backend response whose payload
serializes to the empty object makes the Replit variant's `vectorSearch`
issue a second search attempt instead of terminating after the first. -/
theorem claim_C2_counterexample :
    (replitVectorSearch (.ok emptyObjText) (.ok emptyObjText) false).searchNet = 2 ∧
    (replitVectorSearch (.ok emptyObjText) (.ok emptyObjText) false).searchNet ≠ 1 := by decide

/-- Claim C2 (amended): in integration.js both configurations terminate with
any successful payload unchanged, with exactly one search request and no
indexing call, whenever the payload carries none of the recovery markers
(`needsIndexing` is false — zero results is not a marker). In the Replit
variant a successful first attempt ends the run with its payload only when
the rendered text is non-empty, differs from the empty-object and
empty-array serializations, and lacks the substring "error"; otherwise a
second attempt is issued. -/
theorem claim_C2_amended (baseUrl repo : String) (cred : CredState) (htok : tokenTruthy cred = true)
    (body : Option Payload) (hbody : needsIndexing body = false) (ir : AxiosResponse)
    (srs : Nat → AxiosResponse) (body2 : Option Payload) (hs0 : srs 0 = .success body2)
    (ir2 : AxiosResponse) (t : String) (ht : hasResults ⟨t, false⟩ = true)
    (r2 : Except String String) (g : Bool) :
    vectorSearch baseUrl repo cred (.success body) ir =
      ⟨.ok (.payloadText body), cred, ⟨1, 0, 0, 0, none⟩⟩ ∧
    vectorSearchWithSummary baseUrl repo cred srs ir2 =
      ⟨.ok (.payloadText body2), cred, ⟨1, 0, 0, 0, none⟩⟩ ∧
    replitVectorSearch (.ok t) r2 g = ⟨⟨t, false⟩, 1, false⟩ := by
  refine ⟨?_, ?_, ?_⟩
  · have hax : protectedAxios baseUrl cred (.success body) = ⟨.ok body, cred, 1⟩ := by
      simp [protectedAxios, htok]
    simp [vectorSearch, htok, hax, hbody]
  · simp [vectorSearchWithSummary, htok, summaryLoop, hs0, Stats.zero]
  · simp [replitVectorSearch, replitSearchEnvelope, ht]

/-- Witness for the amended C2: a success payload carrying zero results
passes through both integration.js configurations unchanged, and a non-empty
clean text ends the Replit run on the first attempt. -/
theorem claim_C2_witness :
    vectorSearch "http://localhost:8081" "octo/widgets" (some "tok")
        (.success (some ⟨false, none, none, none, []⟩)) (.success none) =
      ⟨.ok (.payloadText (some ⟨false, none, none, none, []⟩)), some "tok", ⟨1, 0, 0, 0, none⟩⟩ ∧
    vectorSearchWithSummary "http://localhost:8081" "octo/widgets" (some "tok")
        (fun _ => .success (some ⟨false, none, none, none, []⟩)) (.success none) =
      ⟨.ok (.payloadText (some ⟨false, none, none, none, []⟩)), some "tok", ⟨1, 0, 0, 0, none⟩⟩ ∧
    replitVectorSearch (.ok "search results text") (.ok "x") false =
      ⟨⟨"search results text", false⟩, 1, false⟩ :=
  claim_C2_amended "http://localhost:8081" "octo/widgets" (some "tok") (by decide)
    (some ⟨false, none, none, none, []⟩) (by decide) (.success none)
    (fun _ => .success (some ⟨false, none, none, none, []⟩)) (some ⟨false, none, none, none, []⟩)
    rfl (.success none) "search results text" (by decide) (.ok "x") false

/-- Claim C3 counterexample: in the single-shot configuration a 403 response
(auth failure) DOES enter the indexing recovery path — the protected index
executor is invoked. -/
theorem claim_C3_counterexample :
    (vectorSearch "http://localhost:8081" "octo/widgets" (some "tok")
        (.httpError 403 (some ⟨false, none, none, some "Forbidden", []⟩)
          "Request failed with status code 403")
        (.success none)).stats.indexExec ≠ 0 := by decide

/-- Claim C3 (amended): in the polling configuration classification behaves
as the claim states: a failure whose body message contains "not found"
(case-insensitively) is classified NotIndexed, as is any response with
status 500 or 404; a 403 with a clean body is not NotIndexed and the run
ends at once with no indexing. In the single-shot configuration, however, a
403 yields the executor's auth-failure object, which enters the indexing
branch (the subsequent protected index call short-circuits without a
credential), and a 500 response is rethrown by the executor — terminating
the tool invocation with the transport error — rather than being classified
NotIndexed. -/
theorem claim_C3_amended (baseUrl repo : String) (cred : CredState) (htok : tokenTruthy cred = true)
    (st : Nat) (emsg : String) (p : Payload)
    (hp : strIncludes (jsToLower (p.message.getD "")) "not found" = true)
    (body : Option Payload) (p2 : Payload)
    (hq1 : strIncludes (jsToLower (p2.message.getD "")) "not found" = false)
    (hq2 : strIncludes (jsToLower (p2.message.getD "")) "not indexed" = false)
    (srs403 : Nat → AxiosResponse) (h403 : srs403 0 = .httpError 403 (some p2) emsg)
    (ir : AxiosResponse) (body3 : Option Payload) (emsg3 : String) (ir3 : AxiosResponse) :
    summaryNotFound (.httpError st (some p) emsg) = true ∧
    summaryNotFound (.httpError 500 body emsg) = true ∧
    summaryNotFound (.httpError 404 body emsg) = true ∧
    vectorSearchWithSummary baseUrl repo cred srs403 ir =
      ⟨.ok (.text (summaryFailMsg repo emsg)), cred, ⟨1, 0, 0, 0, none⟩⟩ ∧
    vectorSearch baseUrl repo cred (.httpError 403 body3 emsg3) ir3 =
      ⟨.ok (.text (indexFailedMsg repo (noTokenMsg baseUrl))), none,
        ⟨1, 1, 0, 0, some (toFullUrl repo)⟩⟩ ∧
    vectorSearch baseUrl repo cred (.httpError 500 body3 emsg3) ir3 =
      ⟨.error emsg3, cred, ⟨1, 0, 0, 0, none⟩⟩ := by
  have hnf : summaryNotFound (.httpError 403 (some p2) emsg) = false := by
    simp [summaryNotFound, hq1, hq2]
  have hax403 : protectedAxios baseUrl cred (.httpError 403 body3 emsg3) =
      ⟨.ok (some (errPayload (expiredMsg baseUrl))), none, 1⟩ := by
    simp [protectedAxios, htok, clearToken]
  have hax500 : protectedAxios baseUrl cred (.httpError 500 body3 emsg3) =
      ⟨.error emsg3, cred, 1⟩ := by
    simp [protectedAxios, htok]
  have hidx : protectedAxios baseUrl none ir3 =
      ⟨.ok (some (errPayload (noTokenMsg baseUrl))), none, 0⟩ := rfl
  refine ⟨by simp [summaryNotFound, hp], by cases body <;> simp [summaryNotFound],
    by cases body <;> simp [summaryNotFound], ?_, ?_, ?_⟩
  · simp [vectorSearchWithSummary, htok, summaryLoop, h403, hnf, respErrMsg, Stats.zero]
  · simp [vectorSearch, htok, hax403, hidx, needsIndexing, indexFailed, errPayload, jsStr,
      payloadMsgOf]
  · simp [vectorSearch, htok, hax500]

/-- Witness for the amended C3 at concrete responses: a 400 with body
message "Repository not found", 500/404 responses, a 403 with body message
"Forbidden" in the polling loop, and 403/500 in the single-shot tool. -/
theorem claim_C3_witness :
    summaryNotFound (.httpError 400 (some ⟨false, none, none, some "Repository not found", []⟩)
      "Request failed with status code 400") = true ∧
    summaryNotFound (.httpError 500 none "Request failed with status code 400") = true ∧
    summaryNotFound (.httpError 404 none "Request failed with status code 400") = true ∧
    vectorSearchWithSummary "http://localhost:8081" "octo/widgets" (some "tok")
        (fun _ => .httpError 403 (some ⟨false, none, none, some "Forbidden", []⟩)
          "Request failed with status code 400") (.success none) =
      ⟨.ok (.text (summaryFailMsg "octo/widgets" "Request failed with status code 400")),
        some "tok", ⟨1, 0, 0, 0, none⟩⟩ ∧
    vectorSearch "http://localhost:8081" "octo/widgets" (some "tok")
        (.httpError 403 none "boom") (.success none) =
      ⟨.ok (.text (indexFailedMsg "octo/widgets" (noTokenMsg "http://localhost:8081"))), none,
        ⟨1, 1, 0, 0, some (toFullUrl "octo/widgets")⟩⟩ ∧
    vectorSearch "http://localhost:8081" "octo/widgets" (some "tok")
        (.httpError 500 none "boom") (.success none) =
      ⟨.error "boom", some "tok", ⟨1, 0, 0, 0, none⟩⟩ :=
  claim_C3_amended "http://localhost:8081" "octo/widgets" (some "tok") (by decide) 400
    "Request failed with status code 400" ⟨false, none, none, some "Repository not found", []⟩
    (by decide) none ⟨false, none, none, some "Forbidden", []⟩ (by decide) (by decide)
    (fun _ => .httpError 403 (some ⟨false, none, none, some "Forbidden", []⟩)
      "Request failed with status code 400")
    rfl (.success none) none "boom" (.success none)

/-- Claim C4: when the backend reports NotIndexed (a 404) on every attempt
and the indexing trigger itself succeeds, the polling configuration makes
exactly 6 search attempts (at most the budget) and exactly one indexing
trigger, waits five fixed delays, and terminates with the
"not found or not indexed after multiple attempts" message carrying the
last attempt's error detail. -/
theorem claim_C4 (baseUrl repo : String) (cred : CredState) (htok : tokenTruthy cred = true)
    (m : Nat → String) (srs : Nat → AxiosResponse)
    (hsr : ∀ i, i < 6 → srs i = .httpError 404 none (m i))
    (ip : Payload) (hip : indexFailed (some ip) = false) :
    vectorSearchWithSummary baseUrl repo cred srs (.success (some ip)) =
      ⟨.ok (.text (summaryFailMsg repo (m 5))), cred,
        ⟨6, 1, 1, 5 * delayMs, some (toFullUrl repo)⟩⟩ := by
  have h0 := hsr 0 (by omega)
  have h1 := hsr 1 (by omega)
  have h2 := hsr 2 (by omega)
  have h3 := hsr 3 (by omega)
  have h4 := hsr 4 (by omega)
  have h5 := hsr 5 (by omega)
  have hax : protectedAxios baseUrl cred (.success (some ip)) = ⟨.ok (some ip), cred, 1⟩ := by
    simp [protectedAxios, htok]
  simp [vectorSearchWithSummary, htok, summaryLoop, h0, h1, h2, h3, h4, h5, summaryNotFound,
    hax, hip, respErrMsg, Stats.zero, delayMs]

/-- Witness for C4: all six attempts fail with a concrete 404 and the index
call is accepted. -/
theorem claim_C4_witness :
    vectorSearchWithSummary "http://localhost:8081" "octo/widgets" (some "tok")
        (fun _ => .httpError 404 none "Request failed with status code 404")
        (.success (some ⟨false, none, none, some "indexing started", []⟩)) =
      ⟨.ok (.text (summaryFailMsg "octo/widgets" "Request failed with status code 404")),
        some "tok", ⟨6, 1, 1, 5 * delayMs, some (toFullUrl "octo/widgets")⟩⟩ :=
  claim_C4 "http://localhost:8081" "octo/widgets" (some "tok") (by decide)
    (fun _ => "Request failed with status code 404")
    (fun _ => .httpError 404 none "Request failed with status code 404")
    (fun _ _ => rfl) ⟨false, none, none, some "indexing started", []⟩ (by decide)

/-- Claim C8 counterexample: the integration.js axios configuration carries
no request timeout at all, so its outbound calls do not carry the fixed
30-second timeout. -/
theorem claim_C8_counterexample :
    (integrationAxiosConfig none).timeout ≠ some 30000 := by decide

/-- Claim C8 (amended): only the Replit variant's axios configuration
carries the fixed 30-second request timeout; the integration.js variant's
axios configuration and its per-call request options (summary search and
protected call sites) set no timeout; the polling orchestrator's
inter-attempt delay is the independent fixed 10 seconds. -/
theorem claim_C8_amended (secret : Option String) :
    (replitAxiosConfig secret).timeout = some 30000 ∧
    (integrationAxiosConfig secret).timeout = none ∧
    summarySearchReqTimeout = none ∧
    protectedCallReqTimeout = none ∧
    delayMs = 10000 :=
  ⟨rfl, rfl, rfl, rfl, rfl⟩

/-- Claim C10: in the polling configuration a first-attempt failure that is
not classified NotIndexed ends the run immediately — one search attempt, no
retry, no indexing, no waiting — and the returned text is the
"not found or not indexed after multiple attempts" message embedding that
error. -/
theorem claim_C10 (baseUrl repo : String) (cred : CredState) (htok : tokenTruthy cred = true)
    (srs : Nat → AxiosResponse) (r : AxiosResponse) (h0 : srs 0 = r)
    (hns : isSuccessResp r = false) (hnf : summaryNotFound r = false) (ir : AxiosResponse) :
    vectorSearchWithSummary baseUrl repo cred srs ir =
      ⟨.ok (.text (summaryFailMsg repo (respErrMsg r))), cred, ⟨1, 0, 0, 0, none⟩⟩ := by
  cases r with
  | success b => simp [isSuccessResp] at hns
  | httpError s b m =>
      simp [vectorSearchWithSummary, htok, summaryLoop, h0, hnf, respErrMsg, Stats.zero]
  | netError m =>
      simp [vectorSearchWithSummary, htok, summaryLoop, h0, hnf, respErrMsg, Stats.zero]

/-- Witness for C10: a single concrete 401 failure on the first attempt. -/
theorem claim_C10_witness :
    vectorSearchWithSummary "http://localhost:8081" "octo/widgets" (some "tok")
        (fun _ => .httpError 401 none "Request failed with status code 401") (.success none) =
      ⟨.ok (.text (summaryFailMsg "octo/widgets" "Request failed with status code 401")),
        some "tok", ⟨1, 0, 0, 0, none⟩⟩ :=
  claim_C10 "http://localhost:8081" "octo/widgets" (some "tok") (by decide)
    (fun _ => .httpError 401 none "Request failed with status code 401")
    (.httpError 401 none "Request failed with status code 401") rfl (by decide) (by decide)
    (.success none)
